import Mathlib

/-!
Verification development for the neuView eyemap grid-generation pipeline.

The Python sources under `src/neuview/visualization/` are embedded shallowly:
Python dataclasses become Lean structures, Python numbers become `Rat` or
`Int`, fallible code returns `Except PyError`, and Python dictionaries with a
fixed key set become structures (a key holding `None` becomes an `Option`
field holding `none`).  Modules of the repository that are not part of the
provided sources (color.py, validation.py, exceptions.py, constants.py,
coordinate_system.py, the data_processing package, region_grid_processor.py,
file_output_manager.py, base_renderer.py and the Jinja template) are modelled
from the specification; every such definition carries a doc comment starting
with `Modelled from the spec:`.
-/

namespace NeuView

/-- Python exception values observed by the embedded code.  `valueError` and
`typeError` are Python built-ins; the last three are the typed error classes
of the repository's `exceptions.py` (not under the provided sources; the class
names appear in the imports and `except` clauses of eyemap_generator.py). -/
inductive PyError where
  | valueError (msg : String)
  | typeError (msg : String)
  | validationError (msg : String)
  | dataProcessingError (msg : String)
  | renderingError (msg : String)
deriving DecidableEq, Repr

/-- Message carried by a Python exception value. -/
def PyError.message : PyError → String
  | .valueError m => m
  | .typeError m => m
  | .validationError m => m
  | .dataProcessingError m => m
  | .renderingError m => m

/-- Whether an exception value is the repository's `RenderingError`. -/
def PyError.isRenderingError : PyError → Bool
  | .renderingError _ => true
  | _ => false

/-- Whether an exception value is one of the three typed errors caught by
`generate_comprehensive_single_region_grid`
(`except (ValidationError, DataProcessingError, RenderingError)`). -/
def PyError.isTypedEyemapError : PyError → Bool
  | .validationError _ => true
  | .dataProcessingError _ => true
  | .renderingError _ => true
  | _ => false

/-- Whether an `Except` result is an error. -/
def exceptFailed {ε α : Type} (r : Except ε α) : Bool :=
  match r with
  | .error _ => true
  | .ok _ => false

/-- Modelled from the spec: `ColumnStatus` lives in
data_processing/data_structures.py, which is not under the provided sources.
Per §3 the enum is exhaustive with exactly three members; the `.value`
strings `has_data` / `no_data` / `not_in_region` are those compared against
in `_generate_tooltips_for_hexagons` and `_prepare_template_variables`. -/
inductive ColumnStatus where
  | hasData
  | noData
  | notInRegion
deriving DecidableEq, Repr

/-- The Python enum member's `.value` string. -/
def ColumnStatus.statusValue : ColumnStatus → String
  | .hasData => "has_data"
  | .noData => "no_data"
  | .notInRegion => "not_in_region"

/-- Modelled from the spec: `SomaSide` lives in
data_processing/data_structures.py, which is not under the provided sources.
The members `LEFT`, `RIGHT`, `COMBINED`, `L`, `R` are all referenced by
data_transfer_objects.py and eyemap_generator.py. -/
inductive SomaSide where
  | left
  | right
  | combined
  | l
  | r
deriving DecidableEq, Repr

/-- Modelled from the spec: the Python enum member's `.value` string; the
code that consumes it lowercases and compares against `left`/`l`,
`right`/`r`, `combined`. -/
def SomaSide.value : SomaSide → String
  | .left => "left"
  | .right => "right"
  | .combined => "combined"
  | .l => "l"
  | .r => "r"

/-- Modelled from the spec: the color type of color.py, which is not under
the provided sources.  §4.2: the scale produces a color along a fixed palette
gradient proportional to the clamped interpolation factor, and the two fixed
colors `white` and `dark_gray` are defined outside this scale and are never
produced by the scale function, so they are separate constructors. -/
inductive Color where
  | gradient (t : ℚ)
  | white
  | darkGray
deriving DecidableEq, Repr

/-- Modelled from the spec: `ColorPalette.white` of color.py (fixed color for
`NoData`). -/
def paletteWhite : Color := Color.white

/-- Modelled from the spec: `ColorPalette.dark_gray` of color.py (fixed color
for `NotInRegion`). -/
def paletteDarkGray : Color := Color.darkGray

/-- Modelled from the spec: `ColorMapper.map_value_to_color` of color.py.
§4.2: produces a color along the palette gradient proportional to
`(value - min_value) / (max_value - min_value)`, clamped to `[0,1]`. -/
def map_value_to_color (value min_value max_value : ℚ) : Color :=
  Color.gradient (max 0 (min 1 ((value - min_value) / (max_value - min_value))))

/-- Python truncating conversion `int(q)` (rounds toward zero). -/
def pyInt (q : ℚ) : ℤ :=
  if q ≥ 0 then q.floor else -((-q).floor)

/-- `OutputFormat` enum of rendering/rendering_config.py. -/
inductive OutputFormat where
  | svg
  | png
deriving DecidableEq, Repr

/-- Python `str.replace(a, b)` for one-character patterns, on a string seen
as its character list. -/
def pyReplaceChar (a b : Char) (s : List Char) : List Char :=
  s.map (fun c => if c = a then b else c)

/-- Python `str.replace(a, "")` for a one-character pattern: every occurrence
of `a` is removed. -/
def pyRemoveChar (a : Char) (s : List Char) : List Char :=
  s.filter (fun c => c ≠ a)

/-- `RenderingConfig.get_clean_filename` of rendering/rendering_config.py,
lines 88-92: `base.replace(" ", "_").replace("(", "").replace(")", "")` plus
the format extension.  Only the config's `output_format` field is consumed,
so it is the sole parameter here. -/
def get_clean_filename (output_format : OutputFormat) (base_filename : List Char) :
    List Char :=
  let clean_name :=
    pyRemoveChar ')' (pyRemoveChar '(' (pyReplaceChar ' ' '_' base_filename))
  let extension := if output_format = OutputFormat.svg then ".svg".data else ".png".data
  clean_name ++ extension

/-- The filename cleaning as the spec words it (claim C8): each space becomes
an underscore, each parenthesis character is dropped, then the
format-appropriate extension is appended.  Stated per character, to be
compared with the implementation `get_clean_filename`. -/
def cleanFilenameSpec (output_format : OutputFormat) (base_filename : List Char) :
    List Char :=
  (base_filename.foldr
    (fun c acc =>
      if c = ' ' then '_' :: acc
      else if c = '(' ∨ c = ')' then acc
      else c :: acc) [])
  ++ (if output_format = OutputFormat.svg then ".svg".data else ".png".data)

/-- `EyemapGenerator._get_display_layer_name` of eyemap_generator.py, lines
1070-1077: for region `LO` the lookup `{5: "5A", 6: "5B", 7: "6"}` with
default `str(layer_num)`; every other region appends the number directly. -/
def get_display_layer_name (region : String) (layer_num : ℤ) : String :=
  if region = "LO" then
    let display_num :=
      if layer_num = 5 then "5A"
      else if layer_num = 6 then "5B"
      else if layer_num = 7 then "6"
      else toString layer_num
    region ++ display_num
  else
    region ++ toString layer_num

/-- Modelled from the spec: `TOOLTIP_SYNAPSE_LABEL` of constants.py, which is
not under the provided sources; the tooltip label used for the synapse
metric. -/
def TOOLTIP_SYNAPSE_LABEL : String := "Synapses"

/-- Modelled from the spec: `TOOLTIP_CELL_LABEL` of constants.py, which is
not under the provided sources; the tooltip label used for the cell-count
metric. -/
def TOOLTIP_CELL_LABEL : String := "Cells"

/-- `METRIC_SYNAPSE_DENSITY` of constants.py: the metric-type strings are
visible in data_transfer_objects.py's validation lists. -/
def METRIC_SYNAPSE_DENSITY : String := "synapse_density"

/-- `METRIC_CELL_COUNT` of constants.py. -/
def METRIC_CELL_COUNT : String := "cell_count"

/-- One hexagon descriptor, the dictionary built at eyemap_generator.py lines
630-658.  Keys that can hold Python `None` are `Option` fields.  The
`tooltip`, `tooltip_layers` and `base_title` keys are absent until the
finalize steps add them, so they are `Option` fields defaulting to `none`. -/
structure HexData where
  x : ℚ
  y : ℚ
  value : Option ℚ
  layer_values : List ℚ
  layer_colors : List ℚ
  color : Color
  region : String
  side : String
  hex1 : ℤ
  hex2 : ℤ
  neuron_count : Option ℚ
  column_name : String
  synapse_value : Option ℚ
  status : String
  metric_type : String
  tooltip : Option String := none
  tooltip_layers : Option (List String) := none
  base_title : Option String := none
deriving DecidableEq, Repr

/-- The main tooltip string of `_generate_tooltips_for_hexagons`
(eyemap_generator.py lines 1116-1133), for one hexagon. -/
def mainTooltip (region soma_side_str lbl_stat_for_zero : String)
    (status : String) (hex1 hex2 : ℤ) (value : Option ℚ) : String :=
  if status = "not_in_region" then
    "Column: " ++ toString hex1 ++ ", " ++ toString hex2 ++ "\n"
      ++ "Column not identified in " ++ region ++ " (" ++ soma_side_str ++ ")"
  else if status = "no_data" then
    "Column: " ++ toString hex1 ++ ", " ++ toString hex2 ++ "\n"
      ++ lbl_stat_for_zero ++ ": 0\n"
      ++ "ROI: " ++ region ++ " (" ++ soma_side_str ++ ")"
  else
    "Column: " ++ toString hex1 ++ ", " ++ toString hex2 ++ "\n"
      ++ lbl_stat_for_zero ++ ": " ++ toString (pyInt (value.getD 0)) ++ "\n"
      ++ "ROI: " ++ region ++ " (" ++ soma_side_str ++ ")"

/-- One per-layer tooltip string (eyemap_generator.py lines 1137-1148),
for layer index `i` (1-based) holding layer value `v`. -/
def layerTooltip (region soma_side_str : String) (status : String)
    (hex1 hex2 : ℤ) (i : ℕ) (v : ℚ) : String :=
  if status = "not_in_region" then
    "Column: " ++ toString hex1 ++ ", " ++ toString hex2 ++ "\n"
      ++ "Column not identified in " ++ region ++ " (" ++ soma_side_str ++ ")"
      ++ " layer(" ++ toString i ++ ")"
  else if status = "no_data" then
    "0\nROI: " ++ get_display_layer_name region (i : ℤ)
  else
    toString (pyInt v) ++ "\nROI: " ++ get_display_layer_name region (i : ℤ)

/-- The per-layer tooltip list: `enumerate(layer_values, start=1)` mapped
through `layerTooltip`. -/
def layerTooltips (region soma_side_str : String) (status : String)
    (hex1 hex2 : ℤ) (layer_values : List ℚ) : List String :=
  (List.range layer_values.length).zip layer_values
    |>.map (fun p => layerTooltip region soma_side_str status hex1 hex2 (p.1 + 1) p.2)

/-- `EyemapGenerator._generate_tooltips_for_hexagons` of eyemap_generator.py,
lines 1079-1156.  Each input hexagon is copied (`hex_data.copy()`) and the
copy gets `tooltip` and `tooltip_layers` set; the input list and its
dictionaries are not touched.  `soma_side` is received already converted to a
string (the enum case of lines 1097-1100 converts via `.value`). -/
def generate_tooltips_for_hexagons (hexagons : List HexData)
    (soma_side_str : String) (metric_type : String) (region : String) :
    List HexData :=
  let lbl_stat_for_zero :=
    if metric_type = METRIC_SYNAPSE_DENSITY then TOOLTIP_SYNAPSE_LABEL
    else TOOLTIP_CELL_LABEL
  hexagons.map (fun hex_data =>
    { hex_data with
      tooltip := some (mainTooltip region soma_side_str lbl_stat_for_zero
        hex_data.status hex_data.hex1 hex_data.hex2 hex_data.value),
      tooltip_layers := some (layerTooltips region soma_side_str
        hex_data.status hex_data.hex1 hex_data.hex2 hex_data.layer_values) })

/-- The record returned by `_determine_value_range`. -/
structure ValueRange where
  global_min : ℚ
  global_max : ℚ
  min_value : ℚ
  max_value : ℚ
  value_range : ℚ
deriving DecidableEq, Repr

/-- A Python dict keyed by strings, as an association list; a later binding
for the same key overwrites an earlier one at insertion time, so plain
first-match lookup is used together with `dictInsert`. -/
def lookupKey {α : Type} (m : List (String × α)) (k : String) : Option α :=
  match m with
  | [] => none
  | (k2, v) :: rest => if k2 = k then some v else lookupKey rest k

/-- `EyemapGenerator._determine_value_range` of eyemap_generator.py, lines
873-962.  `thresholds` is `Optional[Dict]`; the guard
`thresholds and "all" in thresholds and thresholds["all"]` requires the dict
to be truthy (non-`None` and non-empty), the key present, and the entry
truthy (non-empty list).  In the rational embedding the NaN check of lines
908-916 never fires. -/
def determine_value_range (thresholds : Option (List (String × List ℚ))) :
    Except PyError ValueRange :=
  let defaultRange : ValueRange :=
    { global_min := 0, global_max := 1, min_value := 0, max_value := 1,
      value_range := 1 }
  match thresholds with
  | none => .ok defaultRange
  | some td =>
    if td = [] then .ok defaultRange
    else
      match lookupKey td "all" with
      | none => .ok defaultRange
      | some threshold_values =>
        if threshold_values = [] then .ok defaultRange
        else if threshold_values.length < 2 then
          .error (.dataProcessingError
            "Threshold 'all' values must be a list/tuple with at least 2 elements")
        else
          let global_min0 := threshold_values.headI
          let global_max0 := threshold_values.getLastD 0
          if global_min0 = global_max0 then
            let epsilon : ℚ := if global_min0 ≠ 0 then 1/10 else 1/10
            let global_min := global_min0 - epsilon
            let global_max := global_max0 + epsilon
            .ok { global_min := global_min, global_max := global_max,
                  min_value := global_min, max_value := global_max,
                  value_range :=
                    if global_max > global_min then global_max - global_min else 1 }
          else if global_min0 > global_max0 then
            .error (.dataProcessingError
              ("Threshold minimum (" ++ toString global_min0
                ++ ") must be less than maximum (" ++ toString global_max0 ++ ")"))
          else
            .ok { global_min := global_min0, global_max := global_max0,
                  min_value := global_min0, max_value := global_max0,
                  value_range :=
                    if global_max0 > global_min0 then global_max0 - global_min0 else 1 }

/-- One per-layer record of a column observation.  Modelled from the spec:
`ColumnData.layers` entries live in data_processing/data_structures.py (not
under the provided sources); `_extract_layer_colors` reads their
`synapse_count` and `neuron_count` attributes. -/
structure LayerData where
  synapse_count : ℚ
  neuron_count : ℚ
deriving DecidableEq, Repr

/-- Modelled from the spec: `ColumnData` of
data_processing/data_structures.py (not under the provided sources); §3's
Column Observation `{region, hex1, hex2, side, synapse_count, neuron_count,
layers[]}`. -/
structure ColumnData where
  region : String
  hex1 : ℤ
  hex2 : ℤ
  side : String
  synapse_count : ℚ
  neuron_count : ℚ
  layers : List LayerData
deriving DecidableEq, Repr

/-- An entry of `all_possible_columns`: a dictionary with `hex1`/`hex2` keys
(the only keys eyemap_generator.py reads from it). -/
structure Column where
  hex1 : ℤ
  hex2 : ℤ
deriving DecidableEq, Repr

/-- Modelled from the spec: §3's Processed Column `{hex1, hex2, status,
value, layer_values[]}` (data_processing is not under the provided sources);
`value` is unset unless the status is `HasData`.  The `layer_colors`
attribute is the fallback read by `_extract_layer_colors`. -/
structure ProcessedColumn where
  hex1 : ℤ
  hex2 : ℤ
  status : ColumnStatus
  value : Option ℚ
  layer_values : List ℚ
  layer_colors : List ℚ
deriving DecidableEq, Repr

/-- Modelled from the spec: the result object of
`DataProcessor._process_side_data` (data_processing is not under the provided
sources); eyemap_generator.py reads its `is_successful` and
`processed_columns` attributes. -/
structure ProcessingResult where
  processed_columns : List ProcessedColumn
  is_successful : Bool
deriving DecidableEq, Repr

/-- `ProcessingConfig` of data_processing/data_structures.py, with the fields
`_create_processing_configuration` fills in. -/
structure ProcessingConfig where
  metric_type : String
  soma_side : SomaSide
  region_name : String
  neuron_type : String
  output_format : String
deriving DecidableEq, Repr

/-- `SingleRegionGridRequest` of data_transfer_objects.py, lines 65-91.
`data_map` is keyed by `(region, hex1, hex2)` triples. -/
structure SingleRegionGridRequest where
  all_possible_columns : List Column
  region_column_coords : List (ℤ × ℤ)
  data_map : List ((String × ℤ × ℤ) × ColumnData)
  metric_type : String
  region_name : String
  thresholds : Option (List (String × List ℚ)) := none
  neuron_type : Option String := none
  soma_side : Option SomaSide := none
  output_format : String := "svg"
  other_regions_coords : Option (List (ℤ × ℤ)) := none
deriving DecidableEq, Repr

/-- `SingleRegionGridRequest.__post_init__` (data_transfer_objects.py lines
85-91): metric type and region name are validated at construction. -/
def mkSingleRegionGridRequest (req : SingleRegionGridRequest) :
    Except PyError SingleRegionGridRequest :=
  if req.metric_type ≠ "synapse_density" ∧ req.metric_type ≠ "cell_count" then
    .error (.valueError ("Invalid metric_type: " ++ req.metric_type))
  else if req.region_name = "" then
    .error (.valueError "region_name cannot be empty")
  else .ok req

/-- Dictionary lookup in `data_map` by `(region, hex1, hex2)` key. -/
def lookupData (m : List ((String × ℤ × ℤ) × ColumnData)) (k : String × ℤ × ℤ) :
    Option ColumnData :=
  match m with
  | [] => none
  | (k2, v) :: rest => if k2 = k then some v else lookupData rest k

/-- `EyemapGenerator._extract_layer_colors` of eyemap_generator.py, lines
1046-1068: for a `HasData` column the layer metric counts are read from the
observation's `layers`; otherwise the column's own `layer_colors` fallback,
and the empty list for non-data statuses. -/
def extract_layer_colors (processed_col : ProcessedColumn)
    (req : SingleRegionGridRequest) : List ℚ :=
  if processed_col.status = ColumnStatus.hasData then
    let data_key : String × ℤ × ℤ :=
      (req.region_name, processed_col.hex1, processed_col.hex2)
    match lookupData req.data_map data_key with
    | some data_col =>
      if data_col.layers ≠ [] then
        if req.metric_type = METRIC_SYNAPSE_DENSITY then
          data_col.layers.map (fun layer => layer.synapse_count)
        else if req.metric_type = METRIC_CELL_COUNT then
          data_col.layers.map (fun layer => layer.neuron_count)
        else processed_col.layer_colors
      else processed_col.layer_colors
    | none => processed_col.layer_colors
  else []

/-- Coordinate-pair lookup in the `coord_to_pixel` mapping built at
eyemap_generator.py lines 542-545. -/
def lookupCoord (m : List ((ℤ × ℤ) × (ℚ × ℚ))) (k : ℤ × ℤ) : Option (ℚ × ℚ) :=
  match m with
  | [] => none
  | (k2, v) :: rest => if k2 = k then some v else lookupCoord rest k

/-- One iteration of the hexagon-building loop of
`generate_comprehensive_single_region_grid` (eyemap_generator.py lines
581-667).  `none` is a `continue`: the coordinate pair is missing from
`coord_to_pixel` (line 597), the status matched no enum member (lines
620-625), or — `HasData` with `value = None` — `map_value_to_color` raised
inside the per-hexagon `try` (lines 662-667). -/
def buildHexagon (req : SingleRegionGridRequest) (min_value max_value : ℚ)
    (coord_to_pixel : List ((ℤ × ℤ) × (ℚ × ℚ))) (processed_col : ProcessedColumn) :
    Option HexData :=
  match lookupCoord coord_to_pixel (processed_col.hex1, processed_col.hex2) with
  | none => none
  | some pixel_coords =>
    let layer_colors := extract_layer_colors processed_col req
    let color : Option Color :=
      match processed_col.status, processed_col.value with
      | ColumnStatus.hasData, some v => some (map_value_to_color v min_value max_value)
      | ColumnStatus.hasData, none => none
      | ColumnStatus.noData, _ => some paletteWhite
      | ColumnStatus.notInRegion, _ => some paletteDarkGray
    match color with
    | none => none
    | some c =>
      some
        { x := pixel_coords.1
          y := pixel_coords.2
          value := processed_col.value
          layer_values := processed_col.layer_values
          layer_colors := layer_colors
          color := c
          region := req.region_name
          side := "combined"
          hex1 := processed_col.hex1
          hex2 := processed_col.hex2
          neuron_count :=
            if req.metric_type = METRIC_CELL_COUNT then processed_col.value
            else some 0
          column_name := req.region_name ++ "_col_" ++ toString processed_col.hex1
            ++ "_" ++ toString processed_col.hex2
          synapse_value :=
            if req.metric_type = METRIC_SYNAPSE_DENSITY then processed_col.value
            else some 0
          status := processed_col.status.statusValue
          metric_type := req.metric_type }

/-- The whole hexagon-building loop (eyemap_generator.py lines 566-674):
every processed column yields at most one hexagon descriptor, in input
order. -/
def buildHexagons (req : SingleRegionGridRequest) (min_value max_value : ℚ)
    (coord_to_pixel : List ((ℤ × ℤ) × (ℚ × ℚ)))
    (processed_columns : List ProcessedColumn) : List HexData :=
  processed_columns.filterMap (buildHexagon req min_value max_value coord_to_pixel)

/-- Modelled from the spec:
`EyemapRequestValidator.validate_single_region_request` lives in
validation.py, not under the provided sources.  §4.7's structural pass checks
the required non-empty fields — column list, region name, metric type, valid
output-format value — and produces a typed `ValidationError`. -/
def validate_single_region_request (req : SingleRegionGridRequest) :
    Except PyError Unit :=
  if req.all_possible_columns = [] then
    .error (.validationError "all_possible_columns must be non-empty")
  else if req.region_name = "" then
    .error (.validationError "region_name must be non-empty")
  else if req.metric_type ≠ "synapse_density" ∧ req.metric_type ≠ "cell_count" then
    .error (.validationError ("invalid metric_type: " ++ req.metric_type))
  else if req.output_format ≠ "svg" ∧ req.output_format ≠ "png" then
    .error (.validationError ("invalid output_format: " ++ req.output_format))
  else .ok ()

/-- Modelled from the spec:
`EyemapRuntimeValidator.validate_operation_preconditions` lives in
validation.py, not under the provided sources.  §4.7's runtime-precondition
pass: each boolean precondition flag that is false produces a
`ValidationError` naming the offending field.  The call site
(eyemap_generator.py lines 408-414) passes the truthiness of the column
list, region name, soma side and metric type. -/
def validate_operation_preconditions (has_columns has_region has_side has_metric :
    Bool) : Except PyError Unit :=
  if ¬has_columns then .error (.validationError "precondition failed: has_columns")
  else if ¬has_region then .error (.validationError "precondition failed: has_region")
  else if ¬has_side then .error (.validationError "precondition failed: has_side")
  else if ¬has_metric then .error (.validationError "precondition failed: has_metric")
  else .ok ()

/-- Modelled from the spec:
`EyemapRuntimeValidator.validate_data_consistency` lives in validation.py,
not under the provided sources.  The call site (eyemap_generator.py lines
474-484) requires the `all_possible_columns` entry of the data dictionary to
be present (truthy). -/
def validate_data_consistency (all_possible_columns : List Column) :
    Except PyError Unit :=
  if all_possible_columns = [] then
    .error (.validationError "missing required data: all_possible_columns")
  else .ok ()

/-- `EyemapGenerator._create_processing_configuration` of eyemap_generator.py,
lines 964-1044: converts the request's metric and soma-side strings to enum
values; an unknown metric raises `DataProcessingError`, an unknown or absent
soma side defaults to `COMBINED`.  In this embedding `soma_side` is already
a `SomaSide`, matching the `hasattr(request.soma_side, "value")` branch. -/
def create_processing_configuration (req : SingleRegionGridRequest) :
    Except PyError ProcessingConfig :=
  if req.metric_type = METRIC_SYNAPSE_DENSITY ∨ req.metric_type = METRIC_CELL_COUNT
  then
    let soma_enum := match req.soma_side with
      | some s => s
      | none => SomaSide.combined
    .ok { metric_type := req.metric_type, soma_side := soma_enum,
          region_name := req.region_name,
          neuron_type := req.neuron_type.getD "",
          output_format := req.output_format }
  else
    .error (.dataProcessingError ("Unknown metric type: " ++ req.metric_type))

/-- Modelled from the spec: `DataProcessor._process_side_data` lives in the
data_processing package, not under the provided sources.  §4.3's
classification: a possible column whose coordinates belong to another
region's lattice is `NotInRegion`; one with no matching observation is
`NoData`; otherwise `HasData` with `value` taken from the requested metric
field and `layer_values` index-aligned from the observation's layers.  An
empty possible-column lattice raises `DataProcessingError`.  Output order
follows the lattice iteration order. -/
def process_side_data (all_possible_columns : List Column)
    (data_map : List ((String × ℤ × ℤ) × ColumnData))
    (config : ProcessingConfig) (other_regions_coords : List (ℤ × ℤ)) :
    Except PyError ProcessingResult :=
  if all_possible_columns = [] then
    .error (.dataProcessingError "empty possible-column lattice")
  else
    .ok
      { processed_columns := all_possible_columns.map (fun col =>
          if (col.hex1, col.hex2) ∈ other_regions_coords then
            { hex1 := col.hex1, hex2 := col.hex2,
              status := ColumnStatus.notInRegion, value := none,
              layer_values := [], layer_colors := [] }
          else
            match lookupData data_map (config.region_name, col.hex1, col.hex2) with
            | none =>
              { hex1 := col.hex1, hex2 := col.hex2,
                status := ColumnStatus.noData, value := none,
                layer_values := [], layer_colors := [] }
            | some cd =>
              let v := if config.metric_type = METRIC_CELL_COUNT then
                  cd.neuron_count else cd.synapse_count
              let lv := if config.metric_type = METRIC_CELL_COUNT then
                  cd.layers.map (fun layer => layer.neuron_count)
                else cd.layers.map (fun layer => layer.synapse_count)
              { hex1 := col.hex1, hex2 := col.hex2,
                status := ColumnStatus.hasData, value := some v,
                layer_values := lv, layer_colors := lv }),
        is_successful := true }

/-- `EyemapGenerator._determine_mirror_side_with_context` of
eyemap_generator.py, lines 1339-1356. -/
def determine_mirror_side_with_context (soma_side : Option SomaSide) : String :=
  match soma_side with
  | some SomaSide.right => "left"
  | some SomaSide.r => "left"
  | _ => "right"

/-- Modelled from the spec:
`EyemapCoordinateSystem.to_pixel` lives in coordinate_system.py, not under
the provided sources.  §4.1 fixes only that it is a pure function of
`(hex1, hex2, mirror_side)` using a fixed hexagon size and spacing factor,
with the horizontal axis reflected for one mirror side; a concrete linear
axial-to-pixel instance with hex size 6 and spacing factor 11/10 is used. -/
def to_pixel (hex1 hex2 : ℤ) (mirror_side : String) : ℚ × ℚ :=
  let hex_size : ℚ := 6
  let spacing_factor : ℚ := 11/10
  let x0 : ℚ := hex_size * spacing_factor * (3/2) * hex1
  let y : ℚ := hex_size * spacing_factor * ((hex2 : ℚ) + (hex1 : ℚ) / 2)
  (if mirror_side = "left" then -x0 else x0, y)

/-- Modelled from the spec:
`EyemapCoordinateSystem.convert_column_coordinates` (coordinate_system.py is
not under the provided sources): converts every possible column to its pixel
position, keeping the column's coordinates alongside (`col["hex1"]`,
`col["hex2"]`, `col["x"]`, `col["y"]` are read back by the caller). -/
def convert_column_coordinates (cols : List Column) (mirror_side : String) :
    List (Column × (ℚ × ℚ)) :=
  cols.map (fun col => (col, to_pixel col.hex1 col.hex2 mirror_side))

/-- The dict comprehension at eyemap_generator.py lines 542-545: building a
Python dict lets a later binding for the same key overwrite an earlier one,
so entries are folded in with replacement. -/
def buildCoordToPixel (cols : List (Column × (ℚ × ℚ))) :
    List ((ℤ × ℤ) × (ℚ × ℚ)) :=
  cols.foldl (fun acc p =>
    let k := (p.1.hex1, p.1.hex2)
    (acc.filter (fun q => q.1 ≠ k)) ++ [(k, p.2)]) []

/-- The `try` body of
`EyemapGenerator.generate_comprehensive_single_region_grid`
(eyemap_generator.py lines 402-796).  Raised Python exceptions become
`Except.error`.  The metadata strings of lines 422-462 and the structural
`hasattr` checks of lines 497-502 and 552-558 cannot affect the returned
value in this typed embedding and are omitted.  The call to
`create_rendering_request` at lines 688-699 omits the factory's required
`title`, `subtitle1` and `subtitle2` parameters while passing `plot_desc`,
`neuron_desc` and `region_desc` instead, so Python raises `TypeError` there;
the code from line 700 on is unreachable and is not embedded. -/
def generate_single_region_grid_body (req : SingleRegionGridRequest) :
    Except PyError String := do
  let _ ← validate_single_region_request req
  let _ ← validate_operation_preconditions
    (req.all_possible_columns ≠ []) (req.region_name ≠ "")
    req.soma_side.isSome (req.metric_type ≠ "")
  let value_range ← determine_value_range req.thresholds
  let processing_config ← create_processing_configuration req
  let _ ← validate_data_consistency req.all_possible_columns
  let processing_result ← process_side_data req.all_possible_columns req.data_map
    processing_config (req.other_regions_coords.getD [])
  if ¬processing_result.is_successful then
    .error (.dataProcessingError "Data processing failed")
  else if req.all_possible_columns = [] then
    .error (.dataProcessingError "Cannot convert coordinates from empty column list")
  else
    let mirror_side := determine_mirror_side_with_context req.soma_side
    let columns_with_coords :=
      convert_column_coordinates req.all_possible_columns mirror_side
    if columns_with_coords = [] then
      .error (.dataProcessingError "Coordinate conversion returned empty result")
    else
      let coord_to_pixel := buildCoordToPixel columns_with_coords
      if coord_to_pixel = [] then
        .error (.dataProcessingError "Coordinate to pixel mapping is empty")
      else
        let hexagons := buildHexagons req value_range.min_value
          value_range.max_value coord_to_pixel processing_result.processed_columns
        let soma_side_str := match req.soma_side with
          | some s => s.value
          | none => "right"
        let _hexagons_with_tooltips := generate_tooltips_for_hexagons hexagons
          soma_side_str req.metric_type req.region_name
        .error (.typeError
          "create_rendering_request() missing 3 required positional arguments")

/-- `EyemapGenerator.generate_comprehensive_single_region_grid`
(eyemap_generator.py lines 376-806) with its two `except` clauses: the three
typed errors are caught and the empty string is returned (lines 798-800,
despite the docstring's `Raises` section); any other exception is wrapped in
a `DataProcessingError` and re-raised (lines 801-806). -/
def generate_comprehensive_single_region_grid (req : SingleRegionGridRequest) :
    Except PyError String :=
  match generate_single_region_grid_body req with
  | .ok s => .ok s
  | .error e =>
    if e.isTypedEyemapError then .ok ""
    else .error (.dataProcessingError
      ("Single region grid generation failed: " ++ e.message))

/-- `GridGenerationRequest` of data_transfer_objects.py, lines 13-62. -/
structure GridGenerationRequest where
  column_data : List ColumnData
  thresholds_all : List (String × List ℚ)
  all_possible_columns : List Column
  region_columns_map : List (String × List (ℤ × ℤ))
  neuron_type : String
  soma_side : SomaSide
  output_format : String := "svg"
  save_to_files : Bool := true
deriving DecidableEq, Repr

/-- The `regions` property of `GridGenerationRequest` (data_transfer_objects.py
lines 31-34): the keys of `region_columns_map`. -/
def GridGenerationRequest.regions (req : GridGenerationRequest) : List String :=
  req.region_columns_map.map Prod.fst

/-- The output for one region/side pair, as assembled by
`_handle_all_grid_outputs`: the synapse-metric artifact and the
cell-metric artifact. -/
structure GridOutput where
  synapse : String
  cell : String
deriving DecidableEq, Repr

/-- `GridGenerationResult` of data_transfer_objects.py, lines 143-155.
Wall-clock `processing_time` is not modelled and is fixed at 0. -/
structure GridGenerationResult where
  region_grids : List (String × GridOutput)
  processing_time : ℚ
  success : Bool
  error_message : Option String := none
  warnings : List String := []
deriving DecidableEq, Repr

/-- Modelled from the spec:
`EyemapRequestValidator.validate_grid_generation_request` lives in
validation.py, not under the provided sources.  §4.7's structural pass on the
batch request: required non-empty fields (column lattice, regions,
neuron-type name) and a valid output-format value. -/
def validate_grid_generation_request (req : GridGenerationRequest) :
    Except PyError Unit :=
  if req.neuron_type = "" then
    .error (.validationError "neuron_type must be non-empty")
  else if req.region_columns_map = [] then
    .error (.validationError "regions must be non-empty")
  else if req.all_possible_columns = [] then
    .error (.validationError "all_possible_columns must be non-empty")
  else if req.output_format ≠ "svg" ∧ req.output_format ≠ "png" then
    .error (.validationError ("invalid output_format: " ++ req.output_format))
  else .ok ()

/-- The side strings processed for a request: both hemispheres when the side
selector is `combined`, one otherwise (spec §4.4; the enum conversion of
eyemap_generator.py lines 309-334 is the identity here because the request
already carries a `SomaSide`). -/
def sidesOf : SomaSide → List String
  | SomaSide.combined => ["left", "right"]
  | SomaSide.left => ["left"]
  | SomaSide.l => ["left"]
  | SomaSide.right => ["right"]
  | SomaSide.r => ["right"]

/-- The `SomaSide` for a side string produced by `sidesOf`. -/
def sideEnumOf (side : String) : SomaSide :=
  if side = "left" then SomaSide.left else SomaSide.right

/-- Modelled from the spec:
`ColumnDataManager.organize_structured_data_by_side` lives in the
data_processing package, not under the provided sources.  `_organize_data_by_side`
(eyemap_generator.py lines 298-339) returns a dictionary mapping sides to
their organized data; the observations are grouped by their `side` field. -/
def organize_data_by_side (req : GridGenerationRequest) :
    Except PyError (List (String × List ColumnData)) :=
  .ok ((sidesOf req.soma_side).map (fun side =>
    (side, req.column_data.filter (fun cd => cd.side = side))))

/-- The coordinates of every region other than `region` in the request's
lattice map (the `other_regions_coords` input of §4.3's classification). -/
def otherRegionsCoords (req : GridGenerationRequest) (region : String) :
    List (ℤ × ℤ) :=
  (req.region_columns_map.filter (fun p => p.1 ≠ region)).flatMap Prod.snd

/-- Modelled from the spec: the `SingleRegionGridRequest` built by
`RegionGridProcessor.process_all_regions_and_sides`
(region_grid_processor.py is not under the provided sources) for one
region, side and metric, from the batch request's data (§4.4 steps a-b). -/
def buildSingleRegionRequest (req : GridGenerationRequest)
    (region side metric : String) (data_for_side : List ColumnData) :
    SingleRegionGridRequest :=
  { all_possible_columns := req.all_possible_columns
    region_column_coords := (lookupKey req.region_columns_map region).getD []
    data_map := (data_for_side.filter (fun cd => cd.region = region)).map
      (fun cd => ((cd.region, cd.hex1, cd.hex2), cd))
    metric_type := metric
    region_name := region
    thresholds := some req.thresholds_all
    neuron_type := some req.neuron_type
    soma_side := some (sideEnumOf side)
    output_format := req.output_format
    other_regions_coords := some (otherRegionsCoords req region) }

/-- The intermediate per-pair record that
`_handle_all_grid_outputs` reads (`grid_data["region"]`, `["side"]`,
`["synapse_content"]`, `["cell_content"]`, eyemap_generator.py lines
356-360). -/
structure GridData where
  region : String
  side : String
  synapse_content : String
  cell_content : String
deriving DecidableEq, Repr

/-- Modelled from the spec:
`RegionGridProcessor.process_all_regions_and_sides`
(region_grid_processor.py is not under the provided sources).  §4.4/§7: every
`(region, side)` pair implied by the request is processed independently with
the supplied single-region generator (once per metric); a pair whose
generation raises is omitted from the output map instead of aborting the
batch.  The signature is the call's at eyemap_generator.py lines 251-257:
only the request, the organized data and the generator function are passed,
so a recorded warning has no channel back to the caller's local `warnings`
list. -/
def process_all_regions_and_sides (req : GridGenerationRequest)
    (data_maps : List (String × List ColumnData))
    (f : SingleRegionGridRequest → Except PyError String) :
    Except PyError (List (String × GridData)) :=
  .ok (req.regions.flatMap (fun region =>
    data_maps.filterMap (fun p =>
      let syn := f (buildSingleRegionRequest req region p.1
        METRIC_SYNAPSE_DENSITY p.2)
      let cell := f (buildSingleRegionRequest req region p.1
        METRIC_CELL_COUNT p.2)
      match syn, cell with
      | .ok s, .ok c =>
        some (region ++ "_" ++ p.1,
          { region := region, side := p.1, synapse_content := s,
            cell_content := c })
      | _, _ => none)))

/-- `EyemapGenerator._handle_all_grid_outputs` (eyemap_generator.py lines
341-372).  Modelled from the spec for the file manager it delegates to:
`FileOutputManager.handle_grid_output` (file_output_manager.py is not under
the provided sources) returns the artifact contents for the pair (inline in
embed mode). -/
def handle_all_grid_outputs (processed_grids : List (String × GridData)) :
    Except PyError (List (String × GridOutput)) :=
  .ok (processed_grids.map (fun p =>
    (p.1, { synapse := p.2.synapse_content, cell := p.2.cell_content })))

/-- `EyemapGenerator.generate_comprehensive_region_hexagonal_grids`
(eyemap_generator.py lines 196-296).  A validation failure returns a failed
result with no artifacts (lines 224-234); otherwise the three
`safe_operation` stages run, any exception they raise is caught and turned
into a failed result (lines 279-296), and on success the result carries the
local `warnings` list — which is initialized empty at line 242 and never
appended to. -/
def generate_comprehensive_region_hexagonal_grids (req : GridGenerationRequest) :
    GridGenerationResult :=
  match validate_grid_generation_request req with
  | .error e =>
    { region_grids := [], processing_time := 0, success := false,
      error_message := some ("Request validation failed: " ++ e.message),
      warnings := [] }
  | .ok _ =>
    let warnings : List String := []
    match (do
      let data_maps ← organize_data_by_side req
      let processed ← process_all_regions_and_sides req data_maps
        generate_comprehensive_single_region_grid
      handle_all_grid_outputs processed : Except PyError _) with
    | .ok region_grids =>
      { region_grids := region_grids, processing_time := 0, success := true,
        error_message := none, warnings := warnings }
    | .error e =>
      { region_grids := [], processing_time := 0, success := false,
        error_message := some e.message, warnings := [] }

/-- `RenderingRequest` of data_transfer_objects.py, lines 94-122 (the fields
the embedded code reads). -/
structure RenderingRequest where
  hexagons : List HexData
  min_val : ℚ
  max_val : ℚ
  title : String
  subtitle1 : String
  subtitle2 : String
  metric_type : String
  soma_side : SomaSide
  output_format : String := "svg"
  save_to_file : Bool := false
deriving DecidableEq, Repr

/-- `RenderingRequest.__post_init__` (data_transfer_objects.py lines
116-122): building a rendering request with an empty hexagon list, or with
`min_val >= max_val`, raises `ValueError`. -/
def mkRenderingRequest (hexagons : List HexData) (min_val max_val : ℚ)
    (title subtitle1 subtitle2 metric_type : String) (soma_side : SomaSide) :
    Except PyError RenderingRequest :=
  if hexagons = [] then
    .error (.valueError "hexagons list cannot be empty")
  else if min_val ≥ max_val then
    .error (.valueError "min_val must be less than max_val")
  else
    .ok { hexagons := hexagons, min_val := min_val, max_val := max_val,
          title := title, subtitle1 := subtitle1, subtitle2 := subtitle2,
          metric_type := metric_type, soma_side := soma_side }

/-- `LayoutConfig` of rendering/rendering_config.py, lines 101-128 (the
fields the embedded renderer reads). -/
structure LayoutConfig where
  width : ℤ := 0
  height : ℤ := 0
  min_x : ℚ := 0
  min_y : ℚ := 0
  margin : ℤ := 10
deriving DecidableEq, Repr

/-- Modelled from the spec: `BaseRenderer.validate_hexagons`
(base_renderer.py is not under the provided sources).  It is a per-hexagon
structural check; on an empty list it passes vacuously — `SVGRenderer.render`
reaches its own `if not hexagons` branch (svg_renderer.py lines 70-72)
immediately after calling it, which would otherwise be unreachable.  On
hexagon structures every required field is present by typing, so the check
succeeds. -/
def validate_hexagons (_hexagons : List HexData) : Except PyError Unit :=
  .ok ()

/-- `SVGRenderer._add_tooltips_to_hexagons` of rendering/svg_renderer.py,
lines 276-305: each hexagon is copied; a hexagon without both the `tooltip`
and the `tooltip_layers` keys raises `ValueError` — no fallback tooltip text
is synthesized; otherwise the copy's `base_title` is set from `tooltip`
and its `tooltip_layers` is kept. -/
def add_tooltips_to_hexagons : List HexData → Except PyError (List HexData)
  | [] => .ok []
  | hexagon :: rest =>
    if hexagon.tooltip = none ∨ hexagon.tooltip_layers = none then
      .error (.valueError "Hexagon missing required tooltip data")
    else
      match add_tooltips_to_hexagons rest with
      | .ok processed =>
        .ok ({ hexagon with
               base_title := some (hexagon.tooltip.getD ""),
               tooltip_layers := some (hexagon.tooltip_layers.getD []) } :: processed)
      | .error e => .error e

/-- Modelled from the spec: the Jinja template `eyemap.svg.jinja` is not
under the provided sources.  §4.6/§6: the artifact is a pure function of the
template variables — canvas size, hexagon list and layout offsets — with no
computation beyond iteration and interpolation; a concrete interpolation
instance is used. -/
def render_template (layout_config : LayoutConfig) (hexagons : List HexData) :
    String :=
  "<svg width=" ++ toString layout_config.width
    ++ " height=" ++ toString layout_config.height ++ ">"
    ++ String.join (hexagons.map (fun h =>
        "<hexagon x=" ++ toString h.x.num ++ "/" ++ toString h.x.den
          ++ " y=" ++ toString h.y.num ++ "/" ++ toString h.y.den
          ++ " title=" ++ h.base_title.getD "" ++ ">"))
    ++ "</svg>"

/-- `SVGRenderer.render` of rendering/svg_renderer.py, lines 51-94: after
`validate_hexagons`, an empty hexagon list returns the empty string with only
a logged warning (lines 70-72); otherwise tooltips are processed and the
template rendered, and any exception from that `try` block is re-raised as
`ValueError("SVG rendering failed: ...")` (lines 92-94). -/
def svg_render (hexagons : List HexData) (layout_config : LayoutConfig) :
    Except PyError String :=
  match validate_hexagons hexagons with
  | .error e => .error e
  | .ok _ =>
    if hexagons = [] then .ok ""
    else
      match add_tooltips_to_hexagons hexagons with
      | .ok processed_hexagons => .ok (render_template layout_config processed_hexagons)
      | .error e =>
        .error (.valueError ("SVG rendering failed: " ++ e.message))

/-! Concrete inputs used by witnesses and evaluated counterexamples. -/

/-- A single-region request with an empty possible-column list: its
validation fails, exercising the error path of
`generate_comprehensive_single_region_grid`. -/
def emptyColumnsRequest : SingleRegionGridRequest :=
  { all_possible_columns := [], region_column_coords := [], data_map := [],
    metric_type := "synapse_density", region_name := "ME",
    thresholds := some [("all", [0, 10])], neuron_type := some "T1",
    soma_side := some SomaSide.right }

/-- One observed column at `(0,0)` of region `ME`, right side. -/
def sampleColumnData : ColumnData :=
  { region := "ME", hex1 := 0, hex2 := 0, side := "right",
    synapse_count := 5, neuron_count := 1,
    layers := [{ synapse_count := 3, neuron_count := 1 }] }

/-- A batch request for one region `ME` with one possible column and one
observation; its top-level validation succeeds. -/
def sampleBatchRequest : GridGenerationRequest :=
  { column_data := [sampleColumnData],
    thresholds_all := [("all", [0, 10])],
    all_possible_columns := [{ hex1 := 0, hex2 := 0 }],
    region_columns_map := [("ME", [(0, 0)])],
    neuron_type := "T1", soma_side := SomaSide.right }

/-- A batch request whose region map is empty: its top-level validation
fails. -/
def invalidBatchRequest : GridGenerationRequest :=
  { column_data := [], thresholds_all := [],
    all_possible_columns := [{ hex1 := 0, hex2 := 0 }],
    region_columns_map := [], neuron_type := "T1",
    soma_side := SomaSide.right }

/-- A single-region request over a one-cell lattice with no observations:
every processed column is `NoData`. -/
def noDataRequest : SingleRegionGridRequest :=
  { all_possible_columns := [{ hex1 := 0, hex2 := 0 }],
    region_column_coords := [(0, 0)], data_map := [],
    metric_type := "synapse_density", region_name := "ME",
    thresholds := some [("all", [0, 10])], neuron_type := some "T1",
    soma_side := some SomaSide.right }

/-- The processed columns of `noDataRequest`'s lattice: one `NoData` cell. -/
def noDataProcessedColumns : List ProcessedColumn :=
  [{ hex1 := 0, hex2 := 0, status := ColumnStatus.noData, value := none,
     layer_values := [], layer_colors := [] }]

/-- A one-entry pixel mapping for the cell `(0,0)`. -/
def sampleCoordToPixel : List ((ℤ × ℤ) × (ℚ × ℚ)) := [((0, 0), (1, 2))]

/-- The hexagon descriptor `buildHexagons` produces from
`noDataProcessedColumns` under `sampleCoordToPixel`. -/
def noDataHexagon : HexData :=
  { x := 1, y := 2, value := none, layer_values := [], layer_colors := [],
    color := Color.white, region := "ME", side := "combined", hex1 := 0,
    hex2 := 0, neuron_count := some 0, column_name := "ME_col_0_0",
    synapse_value := none, status := "no_data",
    metric_type := "synapse_density" }

/-- A render-ready hexagon whose tooltip fields have not been finalized. -/
def tooltiplessHexagon : HexData :=
  { x := 1, y := 2, value := some 5, layer_values := [3], layer_colors := [3],
    color := Color.gradient (1/2), region := "ME", side := "combined",
    hex1 := 0, hex2 := 0, neuron_count := some 0, column_name := "ME_col_0_0",
    synapse_value := some 5, status := "has_data",
    metric_type := "synapse_density" }

/-! Theorems. -/

/-- The character-level stem computed by the chained `replace` calls agrees
with the single right fold of the specification reading. -/
theorem clean_stem_eq_foldr (base : List Char) :
    pyRemoveChar ')' (pyRemoveChar '(' (pyReplaceChar ' ' '_' base)) =
      base.foldr
        (fun c acc =>
          if c = ' ' then '_' :: acc
          else if c = '(' ∨ c = ')' then acc
          else c :: acc) [] := by
  induction base with
  | nil => rfl
  | cons c cs ih =>
    simp only [pyReplaceChar, pyRemoveChar, List.map_cons, List.filter_cons,
      List.foldr_cons] at *
    by_cases h1 : c = ' '
    · subst h1
      simpa using ih
    · by_cases h2 : c = '('
      · subst h2
        simpa using ih
      · by_cases h3 : c = ')'
        · subst h3
          simpa using ih
        · simp only [List.filter_filter, ne_eq, decide_not] at ih
          simp [h1, h2, h3, ih, List.filter_cons]

/-- Claim C8: for every base filename, the cleaned output filename replaces
each space with an underscore, removes each parenthesis character, and
appends `.svg` exactly when the configured output format is SVG and `.png`
otherwise. -/
theorem c8_clean_filename (output_format : OutputFormat) (base : List Char) :
    get_clean_filename output_format base = cleanFilenameSpec output_format base := by
  unfold get_clean_filename cleanFilenameSpec
  rw [clean_stem_eq_foldr]

/-- Claim C7: for region `LO` the display name remaps layer 5 to `5A`, 6 to
`5B` and 7 to `6`; any other layer number of `LO`, and every layer number of
any other region, is passed through as the region name followed by the
number. -/
theorem c7_display_layer_name :
    get_display_layer_name "LO" 5 = "LO5A" ∧
    get_display_layer_name "LO" 6 = "LO5B" ∧
    get_display_layer_name "LO" 7 = "LO6" ∧
    (∀ n : ℤ, n ≠ 5 → n ≠ 6 → n ≠ 7 →
      get_display_layer_name "LO" n = "LO" ++ toString n) ∧
    (∀ region : String, ∀ n : ℤ, region ≠ "LO" →
      get_display_layer_name region n = region ++ toString n) := by
  refine ⟨rfl, rfl, rfl, ?_, ?_⟩
  · intro n h5 h6 h7
    simp [get_display_layer_name, h5, h6, h7]
  · intro region n h
    simp [get_display_layer_name, h]

/-- Claim C2, counterexample: a threshold input whose `all` entry is the
one-element list `[7]` has equal first and last elements, yet
`_determine_value_range` raises `DataProcessingError` (the length-2
validation at lines 897-905 fires first) instead of returning the
epsilon-expanded range the claim asserts. -/
theorem c2_counterexample :
    determine_value_range (some [("all", [7])]) =
      .error (.dataProcessingError
        "Threshold 'all' values must be a list/tuple with at least 2 elements") := by
  rfl

/-- Claim C2 as amended: for every threshold input whose `all` entry has at
least two elements and equal first and last elements `t`, the value-range
determination returns the epsilon-expanded range `t - 0.1 .. t + 0.1`
symmetric around `t`, which satisfies `min_value < max_value` strictly. -/
theorem c2_degenerate_range (td : List (String × List ℚ)) (tv : List ℚ) (t : ℚ)
    (hall : lookupKey td "all" = some tv) (hlen : 2 ≤ tv.length)
    (hfirst : tv.headI = t) (hlast : tv.getLastD 0 = t) :
    determine_value_range (some td) =
      .ok { global_min := t - 1/10, global_max := t + 1/10,
            min_value := t - 1/10, max_value := t + 1/10, value_range := 1/5 } ∧
    t - 1/10 < t + 1/10 := by
  have htd : td ≠ [] := by
    intro h
    rw [h] at hall
    exact Option.noConfusion hall
  have htv : tv ≠ [] := by
    intro h
    rw [h] at hlen
    exact absurd hlen (by norm_num)
  have hnotlt : ¬tv.length < 2 := not_lt.mpr hlen
  have hlt : t - 1/10 < t + 1/10 := by linarith
  refine ⟨?_, hlt⟩
  simp only [determine_value_range]
  rw [if_neg htd, hall]
  have hgt : t + 1/10 > t - 1/10 := hlt
  have harith : t + 1/10 - (t - 1/10) = 1/5 := by ring
  have hlast2 : tv.getLast?.getD 0 = t := by
    rw [← List.getLastD_eq_getLast?]
    exact hlast
  simp [if_neg htv, if_neg hnotlt, hfirst, hlast, hlast2, hgt, harith]
  norm_num [hlt]

/-- Claim C2 witness: the degenerate two-element threshold list `[7, 7]`. -/
theorem c2_degenerate_range_witness :
    determine_value_range (some [("all", [7, 7])]) =
      .ok { global_min := 7 - 1/10, global_max := 7 + 1/10,
            min_value := 7 - 1/10, max_value := 7 + 1/10, value_range := 1/5 } ∧
    (7 : ℚ) - 1/10 < 7 + 1/10 :=
  c2_degenerate_range [("all", [7, 7])] [7, 7] 7 rfl (by norm_num) rfl rfl

/-- Claim C5: a top-level request that fails request validation yields a
`GridGenerationResult` with `success = false`, an error message set, and an
empty `region_grids` map — no artifacts at all. -/
theorem c5_validation_failure (req : GridGenerationRequest) (e : PyError)
    (h : validate_grid_generation_request req = .error e) :
    (generate_comprehensive_region_hexagonal_grids req).success = false ∧
    (generate_comprehensive_region_hexagonal_grids req).error_message =
      some ("Request validation failed: " ++ e.message) ∧
    (generate_comprehensive_region_hexagonal_grids req).region_grids = [] := by
  unfold generate_comprehensive_region_hexagonal_grids
  rw [h]
  exact ⟨rfl, rfl, rfl⟩

/-- Claim C5 witness: a batch request with an empty region map fails
validation and produces the failed, artifact-free result. -/
theorem c5_validation_failure_witness :
    (generate_comprehensive_region_hexagonal_grids invalidBatchRequest).success
        = false ∧
    (generate_comprehensive_region_hexagonal_grids invalidBatchRequest).error_message
        = some ("Request validation failed: "
            ++ (PyError.validationError "regions must be non-empty").message) ∧
    (generate_comprehensive_region_hexagonal_grids invalidBatchRequest).region_grids
        = [] :=
  c5_validation_failure invalidBatchRequest
    (.validationError "regions must be non-empty") rfl

/-- Claim C4: at a failing input (empty possible-column list, which fails
validation with `ValidationError`), the single-region grid call does not
raise the typed error to its caller — the `except (ValidationError,
DataProcessingError, RenderingError)` clause at eyemap_generator.py lines
798-800 swallows it and returns the empty string as a normal result,
contradicting the method's own docstring. -/
theorem c4_typed_error_swallowed :
    generate_comprehensive_single_region_grid emptyColumnsRequest = .ok "" := by
  rfl

/-- Claim C3: at a batch input whose top-level validation succeeds and whose
single `(ME, right)` pair fails (its single-region generation raises
`DataProcessingError`), the result still has `success = true` but its
`warnings` list is empty — the local `warnings` list of
`generate_comprehensive_region_hexagonal_grids` is never appended to, so no
failed pair is ever recorded. -/
theorem c3_partial_failure_empty_warnings :
    exceptFailed (generate_comprehensive_single_region_grid
      (buildSingleRegionRequest sampleBatchRequest "ME" "right"
        METRIC_SYNAPSE_DENSITY [sampleColumnData])) = true ∧
    (generate_comprehensive_region_hexagonal_grids sampleBatchRequest).success
        = true ∧
    (generate_comprehensive_region_hexagonal_grids sampleBatchRequest).warnings
        = [] := by
  refine ⟨?_, ?_, ?_⟩ <;> rfl

/-- Claim C1: every hexagon descriptor built by the single-region grid
generator gets its color by construction from its status — the mapper's
scale color for `HasData`, the palette's fixed white for `NoData`, the fixed
dark gray for `NotInRegion` — and the value-to-color scale never produces
either fixed color. -/
theorem c1_color_by_status (req : SingleRegionGridRequest)
    (min_value max_value : ℚ) (coord_to_pixel : List ((ℤ × ℤ) × (ℚ × ℚ)))
    (pcs : List ProcessedColumn) (hex : HexData)
    (hmem : hex ∈ buildHexagons req min_value max_value coord_to_pixel pcs) :
    (hex.status = "has_data" → ∃ v, hex.value = some v ∧
        hex.color = map_value_to_color v min_value max_value) ∧
    (hex.status = "no_data" → hex.color = paletteWhite) ∧
    (hex.status = "not_in_region" → hex.color = paletteDarkGray) ∧
    (∀ v a b : ℚ, map_value_to_color v a b ≠ paletteWhite ∧
        map_value_to_color v a b ≠ paletteDarkGray) := by
  have hfixed : ∀ v a b : ℚ, map_value_to_color v a b ≠ paletteWhite ∧
      map_value_to_color v a b ≠ paletteDarkGray := by
    intro v a b
    unfold map_value_to_color paletteWhite paletteDarkGray
    exact ⟨fun h => Color.noConfusion h, fun h => Color.noConfusion h⟩
  simp only [buildHexagons, List.mem_filterMap] at hmem
  obtain ⟨pc, _, hbuild⟩ := hmem
  unfold buildHexagon at hbuild
  rcases hlook : lookupCoord coord_to_pixel (pc.hex1, pc.hex2) with _ | px
  · rw [hlook] at hbuild
    exact Option.noConfusion hbuild
  · rw [hlook] at hbuild
    rcases hst : pc.status with _ | _ | _ <;> rw [hst] at hbuild
    · rcases hv : pc.value with _ | v <;> rw [hv] at hbuild
      · exact Option.noConfusion hbuild
      · simp only [Option.some.injEq] at hbuild
        subst hbuild
        refine ⟨fun _ => ⟨v, rfl, rfl⟩, fun h => ?_, fun h => ?_, hfixed⟩
        · exact absurd h (by simp [ColumnStatus.statusValue])
        · exact absurd h (by simp [ColumnStatus.statusValue])
    · simp only [Option.some.injEq] at hbuild
      subst hbuild
      refine ⟨fun h => ?_, fun _ => rfl, fun h => ?_, hfixed⟩
      · exact absurd h (by simp [ColumnStatus.statusValue])
      · exact absurd h (by simp [ColumnStatus.statusValue])
    · simp only [Option.some.injEq] at hbuild
      subst hbuild
      refine ⟨fun h => ?_, fun h => ?_, fun _ => rfl, hfixed⟩
      · exact absurd h (by simp [ColumnStatus.statusValue])
      · exact absurd h (by simp [ColumnStatus.statusValue])

/-- Claim C1 witness: the `NoData` cell of `noDataRequest` yields the
hexagon `noDataHexagon`, whose color is the palette's fixed white. -/
theorem c1_color_by_status_witness :
    noDataHexagon.color = paletteWhite :=
  (c1_color_by_status noDataRequest 0 10 sampleCoordToPixel
    noDataProcessedColumns noDataHexagon (by decide)).2.1 rfl

/-- Claim C9: the tooltip-finalize step is order-preserving and
non-mutating — its output has one hexagon per input hexagon, in order, each
a copy agreeing with the input on every pre-existing field, with only the
`tooltip` and `tooltip_layers` fields set (to the computed tooltip texts). -/
theorem c9_tooltips_preserve_fields (hexagons : List HexData)
    (soma_side_str metric_type region : String) (i : ℕ)
    (hi : i < (generate_tooltips_for_hexagons hexagons soma_side_str
      metric_type region).length)
    (hi2 : i < hexagons.length) :
    (generate_tooltips_for_hexagons hexagons soma_side_str metric_type
      region).length = hexagons.length ∧
    ((generate_tooltips_for_hexagons hexagons soma_side_str metric_type
      region)[i].x = hexagons[i].x ∧
     (generate_tooltips_for_hexagons hexagons soma_side_str metric_type
      region)[i].y = hexagons[i].y ∧
     (generate_tooltips_for_hexagons hexagons soma_side_str metric_type
      region)[i].value = hexagons[i].value ∧
     (generate_tooltips_for_hexagons hexagons soma_side_str metric_type
      region)[i].layer_values = hexagons[i].layer_values ∧
     (generate_tooltips_for_hexagons hexagons soma_side_str metric_type
      region)[i].layer_colors = hexagons[i].layer_colors ∧
     (generate_tooltips_for_hexagons hexagons soma_side_str metric_type
      region)[i].color = hexagons[i].color ∧
     (generate_tooltips_for_hexagons hexagons soma_side_str metric_type
      region)[i].status = hexagons[i].status ∧
     (generate_tooltips_for_hexagons hexagons soma_side_str metric_type
      region)[i].region = hexagons[i].region ∧
     (generate_tooltips_for_hexagons hexagons soma_side_str metric_type
      region)[i].side = hexagons[i].side ∧
     (generate_tooltips_for_hexagons hexagons soma_side_str metric_type
      region)[i].hex1 = hexagons[i].hex1 ∧
     (generate_tooltips_for_hexagons hexagons soma_side_str metric_type
      region)[i].hex2 = hexagons[i].hex2 ∧
     (generate_tooltips_for_hexagons hexagons soma_side_str metric_type
      region)[i].neuron_count = hexagons[i].neuron_count ∧
     (generate_tooltips_for_hexagons hexagons soma_side_str metric_type
      region)[i].column_name = hexagons[i].column_name ∧
     (generate_tooltips_for_hexagons hexagons soma_side_str metric_type
      region)[i].synapse_value = hexagons[i].synapse_value ∧
     (generate_tooltips_for_hexagons hexagons soma_side_str metric_type
      region)[i].metric_type = hexagons[i].metric_type ∧
     (generate_tooltips_for_hexagons hexagons soma_side_str metric_type
      region)[i].base_title = hexagons[i].base_title) ∧
    (generate_tooltips_for_hexagons hexagons soma_side_str metric_type
      region)[i].tooltip =
      some (mainTooltip region soma_side_str
        (if metric_type = METRIC_SYNAPSE_DENSITY then TOOLTIP_SYNAPSE_LABEL
         else TOOLTIP_CELL_LABEL)
        hexagons[i].status hexagons[i].hex1 hexagons[i].hex2
        hexagons[i].value) ∧
    (generate_tooltips_for_hexagons hexagons soma_side_str metric_type
      region)[i].tooltip_layers =
      some (layerTooltips region soma_side_str hexagons[i].status
        hexagons[i].hex1 hexagons[i].hex2 hexagons[i].layer_values) := by
  unfold generate_tooltips_for_hexagons
  simp [List.getElem_map]

/-- Claim C9 witness: the finalize step on a one-hexagon list keeps its
length. -/
theorem c9_tooltips_preserve_fields_witness :
    (generate_tooltips_for_hexagons [tooltiplessHexagon] "right"
      "synapse_density" "ME").length = [tooltiplessHexagon].length :=
  (c9_tooltips_preserve_fields [tooltiplessHexagon] "right" "synapse_density"
    "ME" 0 (by decide) (by decide)).1

/-- Skipping the finalize step is detected: if any hexagon in the list lacks
its tooltip data, `_add_tooltips_to_hexagons` raises. -/
theorem add_tooltips_error_of_missing (hexagons : List HexData)
    (hex : HexData) (hmem : hex ∈ hexagons)
    (hmiss : hex.tooltip = none ∨ hex.tooltip_layers = none) :
    ∃ e, add_tooltips_to_hexagons hexagons = .error e := by
  induction hexagons with
  | nil => cases hmem
  | cons a rest ih =>
    unfold add_tooltips_to_hexagons
    by_cases ha : a.tooltip = none ∨ a.tooltip_layers = none
    · rw [if_pos ha]
      exact ⟨_, rfl⟩
    · rw [if_neg ha]
      rcases List.mem_cons.mp hmem with h | h
      · subst h
        exact absurd hmiss ha
      · obtain ⟨e, he⟩ := ih h
        rw [he]
        exact ⟨e, rfl⟩

/-- Claim C10: for a non-empty hexagon list in which some hexagon lacks a
`tooltip` or a `tooltip_layers` entry, `SVGRenderer.render` raises instead
of emitting an artifact; no fallback tooltip text is synthesized. -/
theorem c10_render_requires_tooltips (hexagons : List HexData)
    (layout_config : LayoutConfig) (hex : HexData) (hne : hexagons ≠ [])
    (hmem : hex ∈ hexagons)
    (hmiss : hex.tooltip = none ∨ hex.tooltip_layers = none) :
    exceptFailed (svg_render hexagons layout_config) = true := by
  obtain ⟨e, he⟩ := add_tooltips_error_of_missing hexagons hex hmem hmiss
  unfold svg_render validate_hexagons
  rw [if_neg hne, he]
  rfl

/-- Claim C10 witness: rendering a one-hexagon list whose hexagon has no
tooltip fields fails. -/
theorem c10_render_requires_tooltips_witness :
    exceptFailed (svg_render [tooltiplessHexagon] {}) = true :=
  c10_render_requires_tooltips [tooltiplessHexagon] {} tooltiplessHexagon
    (List.cons_ne_nil _ _) (List.mem_singleton_self _) (Or.inl rfl)

/-- Claim C6, counterexample: the empty hexagon list does not produce a
`RenderingError` anywhere in the rendering stage — constructing the
`RenderingRequest` raises `ValueError` (data_transfer_objects.py line 119),
and `SVGRenderer.render` applied directly to the empty list returns the
empty string without raising (svg_renderer.py lines 70-72). -/
theorem c6_counterexample :
    mkRenderingRequest [] 0 1 "t" "s1" "s2" "synapse_density" SomaSide.right =
      .error (.valueError "hexagons list cannot be empty") ∧
    (PyError.valueError "hexagons list cannot be empty").isRenderingError
      = false ∧
    svg_render [] {} = .ok "" := by
  exact ⟨rfl, rfl, rfl⟩

/-- Claim C6 as amended: constructing a `RenderingRequest` with an empty
hexagons list always fails — with `ValueError`, not `RenderingError` — and
the SVG renderer invoked on an empty hexagon list returns the empty string,
so no artifact is ever produced from zero hexagons. -/
theorem c6_empty_hexagons_rejected (hexagons : List HexData)
    (min_val max_val : ℚ) (title subtitle1 subtitle2 metric_type : String)
    (soma_side : SomaSide) (layout_config : LayoutConfig)
    (h : hexagons = []) :
    mkRenderingRequest hexagons min_val max_val title subtitle1 subtitle2
      metric_type soma_side =
      .error (.valueError "hexagons list cannot be empty") ∧
    svg_render hexagons layout_config = .ok "" := by
  subst h
  exact ⟨rfl, rfl⟩

/-- Claim C6 witness: the empty list, with an arbitrary value range and
layout. -/
theorem c6_empty_hexagons_rejected_witness :
    mkRenderingRequest [] 0 1 "a" "b" "c" "cell_count" SomaSide.left =
      .error (.valueError "hexagons list cannot be empty") ∧
    svg_render [] {} = .ok "" :=
  c6_empty_hexagons_rejected [] 0 1 "a" "b" "c" "cell_count" SomaSide.left {}
    rfl

end NeuView
